import Mathlib

/-!
Shallow embedding of the Blueprints MCP server's session, authorization and
HTTP message-handling logic (files `src/auth.ts`, the HTTP transport and the
server dispatcher), together with proofs about it.

Timestamps are modelled as natural numbers of milliseconds (JavaScript `Date`
values compare by their millisecond epoch value).  JavaScript strings are
modelled as Lean strings; the string primitives used by the code
(`startsWith`, `substring`, `length`) are modelled on the character list so
that every definition evaluates by kernel reduction.
-/

namespace Blueprints

/-- Model of JS `String.prototype.startsWith`: the first list is the candidate
prefix pattern, the second the character list of the string. -/
def strStartsWithAux : List Char → List Char → Bool
  | [], _ => true
  | _ :: _, [] => false
  | p :: ps, c :: cs => p == c && strStartsWithAux ps cs

/-- Model of `s.startsWith(p)` from JS. -/
def strStartsWith (s p : String) : Bool :=
  strStartsWithAux p.data s.data

/-- Model of `s.substring(n)` from JS: drop the first `n` characters. -/
def strDrop (s : String) (n : Nat) : String :=
  String.mk (s.data.drop n)

/-- Model of `s.length` from JS. -/
def strLength (s : String) : Nat :=
  s.data.length

/-- The session record stored by `AuthManager` (interface `SessionData` in
`src/auth.ts`). -/
structure SessionData where
  id : String
  userId : String
  createdAt : Nat
  lastActivity : Nat
  scopes : List String
  expiresAt : Nat
deriving DecidableEq

/-- The `AuthManager`'s `sessions: Map<string, SessionData>`, modelled as an
association list observed only through `storeGet`. -/
abbrev SessionStore := List (String × SessionData)

/-- `Map.get`: the value of the first entry with the given key. -/
def storeGet : SessionStore → String → Option SessionData
  | [], _ => none
  | p :: rest, k => if p.1 == k then some p.2 else storeGet rest k

/-- `Map.delete`: remove the entries with the given key. -/
def storeDelete : SessionStore → String → SessionStore
  | [], _ => []
  | p :: rest, k => if p.1 == k then storeDelete rest k else p :: storeDelete rest k

/-- `Map.set`: replace the first entry with the given key, or append a new
entry when the key is absent. -/
def storeSet : SessionStore → String → SessionData → SessionStore
  | [], k, v => [(k, v)]
  | p :: rest, k, v => if p.1 == k then (k, v) :: rest else p :: storeSet rest k v

/-- `AuthManager.validateApiKey`: the key must start with `bp_sk_` and be
longer than 8 characters. -/
def validateApiKey (apiKey : String) : Bool :=
  if !(strStartsWith apiKey ("bp_sk_")) then
    false
  else
    decide (strLength apiKey > 8)

/-- `AuthManager.createSession`, with the generated session id and the current
time passed explicitly (the source draws them from an HMAC generator and
`new Date()`). -/
def createSession (sessionId : String) (userId : String) (scopes : List String)
    (now : Nat) : SessionData :=
  { id := sessionId
    userId := userId
    createdAt := now
    lastActivity := now
    scopes := scopes
    expiresAt := now + 30 * 60 * 1000 }

/-- `AuthManager.validateSession`: returns the looked-up record (with
last-activity refreshed) or `none`, together with the store after the call's
side effects (lazy deletion of an expired record, or the last-activity
update). -/
def validateSession (store : SessionStore) (now : Nat) (sessionId : String) :
    Option SessionData × SessionStore :=
  match storeGet store sessionId with
  | none => (none, store)
  | some session =>
    if now > session.expiresAt then
      (none, storeDelete store sessionId)
    else
      (some { session with lastActivity := now },
       storeSet store sessionId { session with lastActivity := now })

/-- `AuthManager.hasScope`: the `admin` scope grants everything, otherwise the
required scope must be listed. -/
def hasScope (session : SessionData) (requiredScope : String) : Bool :=
  if session.scopes.contains ("admin") then
    true
  else
    session.scopes.contains requiredScope

/-- `AuthManager.hasScope` applied to a non-string value (an Object.prototype
member leaked by the scope-map lookup): the `admin` short-circuit still
applies, while `includes` of a non-string value over the string scope array is
always false. -/
def hasScopeInherited (session : SessionData) : Bool :=
  if session.scopes.contains ("admin") then
    true
  else
    false

/-- A parsed JSON-RPC message: a method name and an optional numeric id.
JS truthiness of `message.id` is modelled by `msgIdTruthy`. -/
structure Message where
  method : String
  id : Option Int
deriving DecidableEq

/-- JS truthiness of `message.id` (`undefined` and `0` are falsy). -/
def msgIdTruthy : Option Int → Bool
  | none => false
  | some n => !(n == 0)

/-- The JSON-RPC payloads that `BlueprintsMCPServer.receiveMessage` can
return: a `{jsonrpc, id, result: {success, message}}` response, the
`{jsonrpc, id, error: {...}}` response of the catch branch, or the empty
object `{}` returned for notifications. -/
inductive RpcResponse where
  | resultResp : Option Int → String → RpcResponse
  | errorResp : Option Int → Int → String → RpcResponse
  | emptyObj : RpcResponse
deriving DecidableEq

/-- `BlueprintsMCPServer.receiveMessage`: a truthy id yields the placeholder
result response, otherwise the notification is logged and `{}` is returned.
The catch branch is unreachable in this pure model (nothing in the try block
throws). -/
def receiveMessage (message : Message) : RpcResponse :=
  if msgIdTruthy message.id then
    RpcResponse.resultResp message.id (("Processed ") ++ message.method)
  else
    RpcResponse.emptyObj

/-- The distinct JSON bodies the HTTP transport writes with `res.end`.
`errorMsgInherited name` is the 403 insufficient-permissions message whose
template literal interpolates the string coercion of the Object.prototype
member named `name` (the coerced text is host-engine-defined, so the body is
modelled by the member's name). -/
inductive Body where
  | errorMsg : String → Body
  | errorMsgInherited : String → Body
  | initResponse : Option Int → Body
  | rpc : RpcResponse → Body
  | fallbackResult : Option Int → String → Body
deriving DecidableEq

/-- An HTTP response: status code, optional `mcp-session-id` response header,
and optional JSON body (`none` models `res.end()` with no body). -/
structure HttpResponse where
  status : Nat
  sessionHeader : Option String
  body : Option Body
deriving DecidableEq

/-- An incoming HTTP request as `HTTPTransport.handleRequest` observes it:
verb, path, the `sessionId` query parameter, the `mcp-session-id` header, the
`authorization` header, and the parsed JSON body. -/
structure HttpRequest where
  httpMethod : String
  path : String
  sessionIdFromQuery : Option String
  sessionIdFromHeader : Option String
  authHeader : Option String
  message : Message
deriving DecidableEq

/-- Lines 61-66 of the transport: a session id is adopted only when the query
parameter and the header are both present and truthy (non-empty) and equal. -/
def extractSessionId : Option String → Option String → Option String
  | some q, some h =>
    if !(q == ("")) && !(h == ("")) && q == h then some q else none
  | _, _ => none

/-- `HTTPTransport.getRequiredScope`: the method-to-scope map, as a literal
association list in the source's order. -/
def scopeMap : List (String × String) :=
  [(("tools/list_agents"), ("read")),
   (("tools/create_agent"), ("write")),
   (("tools/start_agent"), ("execute")),
   (("tools/stop_agent"), ("execute")),
   (("tools/edit_agent_config"), ("write")),
   (("tools/remove_agent"), ("write")),
   (("tools/send_message"), ("write")),
   (("tools/send_terminal"), ("terminal")),
   (("tools/agent_status"), ("read")),
   (("tools/account_register"), ("read")),
   (("tools/pay_upgrade"), ("read")),
   (("list_agents"), ("read")),
   (("create_agent"), ("write")),
   (("start_agent"), ("execute")),
   (("stop_agent"), ("execute")),
   (("edit_agent_config"), ("write")),
   (("remove_agent"), ("write")),
   (("send_message"), ("write")),
   (("send_terminal"), ("terminal")),
   (("agent_status"), ("read")),
   (("account_register"), ("read")),
   (("pay_upgrade"), ("read"))]

/-- The value `scopeMap[method]` evaluates to in JS: either the string of an
own entry of the object literal, or the truthy non-string member (function,
or object for `__proto__`) inherited from `Object.prototype` when `method`
names one, tagged here by the member's name. -/
inductive ScopeRequirement where
  | scopeName : String → ScopeRequirement
  | inheritedValue : String → ScopeRequirement
deriving DecidableEq

/-- The string-keyed properties every plain object literal inherits from
`Object.prototype`, which a bare `scopeMap[method]` read falls through to
when `method` is not an own key. -/
def objectPrototypeKeys : List String :=
  [("constructor"), ("hasOwnProperty"), ("isPrototypeOf"),
   ("propertyIsEnumerable"), ("toLocaleString"), ("toString"), ("valueOf"),
   ("__defineGetter__"), ("__defineSetter__"), ("__lookupGetter__"),
   ("__lookupSetter__"), ("__proto__")]

/-- `scopeMap[method] || null`: an own entry yields its (non-empty, hence
truthy) scope string; otherwise the property read falls through the prototype
chain, yielding the truthy inherited member for an `Object.prototype` name;
only a name found in neither place yields undefined, which `|| null` turns
into null. -/
def getRequiredScope (method : String) : Option ScopeRequirement :=
  match (scopeMap.find? (fun p => p.1 == method)).map (fun p => p.2) with
  | some s => some (ScopeRequirement.scopeName s)
  | none =>
    if objectPrototypeKeys.contains method then
      some (ScopeRequirement.inheritedValue method)
    else
      none

/-- Lines 153-180 of the transport: forward the message to the server
instance when one is wired (serialising whatever `receiveMessage` returned,
even the `{}` of a notification), otherwise the fallback that answers
id-bearing requests with a generic result and notifications with no body. -/
def dispatchMessage (hasServerInstance : Bool) (sid : String)
    (message : Message) : HttpResponse :=
  if hasServerInstance then
    { status := 200
      sessionHeader := some sid
      body := some (Body.rpc (receiveMessage message)) }
  else if msgIdTruthy message.id then
    { status := 200
      sessionHeader := some sid
      body := some (Body.fallbackResult message.id message.method) }
  else
    { status := 200, sessionHeader := none, body := none }

/-- Lines 132-180 of the transport: processing of a request whose session was
validated.  `notifications/initialized` is acknowledged with an empty 200;
then the scope gate (`requiredScope && !hasScope` → 403) and forwarding. -/
def handleActive (store : SessionStore) (hasServerInstance : Bool)
    (session : SessionData) (sid : String) (message : Message) :
    HttpResponse × SessionStore :=
  if message.method == ("notifications/initialized") then
    ({ status := 200, sessionHeader := none, body := none }, store)
  else
    match getRequiredScope message.method with
    | some (ScopeRequirement.scopeName requiredScope) =>
      if !(hasScope session requiredScope) then
        ({ status := 403
           sessionHeader := none
           body := some (Body.errorMsg
             (("Insufficient permissions. Required scope: ") ++ requiredScope)) },
         store)
      else
        (dispatchMessage hasServerInstance sid message, store)
    | some (ScopeRequirement.inheritedValue name) =>
      if !(hasScopeInherited session) then
        ({ status := 403
           sessionHeader := none
           body := some (Body.errorMsgInherited name) },
         store)
      else
        (dispatchMessage hasServerInstance sid message, store)
    | none => (dispatchMessage hasServerInstance sid message, store)

/-- `HTTPTransport.handleRequest`.  Explicit parameters stand for the ambient
effects: `now` for `new Date()`, `newSessionId` for the HMAC session-id
generator, and `hasServerInstance` for whether a server instance with a
`receiveMessage` function is wired.  Returns the response together with the
session store after the call. -/
def handleRequest (store : SessionStore) (now : Nat) (newSessionId : String)
    (hasServerInstance : Bool) (req : HttpRequest) :
    HttpResponse × SessionStore :=
  if !(req.httpMethod == ("POST")) || !(req.path == ("/mcp/messages")) then
    ({ status := 404, sessionHeader := none,
       body := some (Body.errorMsg ("Not found")) }, store)
  else
    match req.authHeader with
    | none =>
      ({ status := 401, sessionHeader := none,
         body := some (Body.errorMsg ("Missing or invalid authorization header")) },
       store)
    | some authHeader =>
      if !(strStartsWith authHeader ("Bearer ")) then
        ({ status := 401, sessionHeader := none,
           body := some (Body.errorMsg ("Missing or invalid authorization header")) },
         store)
      else if !(validateApiKey (strDrop authHeader 7)) then
        ({ status := 401, sessionHeader := none,
           body := some (Body.errorMsg ("Invalid API key format")) }, store)
      else
        match extractSessionId req.sessionIdFromQuery req.sessionIdFromHeader with
        | none =>
          if req.message.method == ("initialize") then
            ({ status := 200
               sessionHeader := some newSessionId
               body := some (Body.initResponse req.message.id) },
             storeSet store newSessionId
               (createSession newSessionId ("demo-user") [("read"), ("write")] now))
          else
            ({ status := 401, sessionHeader := none,
               body := some (Body.errorMsg ("Session required for this request")) },
             store)
        | some sid =>
          match validateSession store now sid with
          | (none, store1) =>
            ({ status := 401, sessionHeader := none,
               body := some (Body.errorMsg ("Invalid or expired session")) }, store1)
          | (some session, store1) =>
            handleActive store1 hasServerInstance session sid req.message

/-- The bare spellings of the known logical operations (the entries of the
scope map without their `tools/` namespaced duplicates). -/
def knownOperations : List String :=
  [("list_agents"), ("create_agent"), ("start_agent"), ("stop_agent"),
   ("edit_agent_config"), ("remove_agent"), ("send_message"), ("send_terminal"),
   ("agent_status"), ("account_register"), ("pay_upgrade")]

/-- A concrete live session record used in the concrete-input theorems. -/
def demoSession : SessionData :=
  { id := ("s1"), userId := ("u1"), createdAt := 0, lastActivity := 0,
    scopes := [("read"), ("write")], expiresAt := 1800000 }

/-- A store holding exactly `demoSession` under its id. -/
def demoStore : SessionStore := [(("s1"), demoSession)]

/-- A concrete session record holding only the `admin` scope. -/
def adminSession : SessionData :=
  { id := ("s2"), userId := ("u2"), createdAt := 0, lastActivity := 0,
    scopes := [("admin")], expiresAt := 1800000 }

/-- A request supplying the session id through the header channel only. -/
def reqHeaderOnly : HttpRequest :=
  { httpMethod := ("POST"), path := ("/mcp/messages"),
    sessionIdFromQuery := none, sessionIdFromHeader := some ("s1"),
    authHeader := some ("Bearer bp_sk_123"),
    message := { method := ("tools/list_agents"), id := some 1 } }

/-- A request supplying the same session id through both channels. -/
def reqBothChannels : HttpRequest :=
  { httpMethod := ("POST"), path := ("/mcp/messages"),
    sessionIdFromQuery := some ("s1"), sessionIdFromHeader := some ("s1"),
    authHeader := some ("Bearer bp_sk_123"),
    message := { method := ("tools/list_agents"), id := some 1 } }

/-- A handshake request whose two session-id channels disagree. -/
def reqMismatch : HttpRequest :=
  { httpMethod := ("POST"), path := ("/mcp/messages"),
    sessionIdFromQuery := some ("a"), sessionIdFromHeader := some ("b"),
    authHeader := some ("Bearer bp_sk_123"),
    message := { method := ("initialize"), id := some 1 } }

/-- A request whose bearer token fails the format check. -/
def reqBadToken : HttpRequest :=
  { httpMethod := ("POST"), path := ("/mcp/messages"),
    sessionIdFromQuery := some ("s1"), sessionIdFromHeader := some ("s1"),
    authHeader := some ("Bearer xx"),
    message := { method := ("initialize"), id := some 1 } }

/-- The `notifications/initialized` notification message. -/
def msgInitialized : Message :=
  { method := ("notifications/initialized"), id := none }

/-- A message whose method appears nowhere in the scope map. -/
def msgUnknown : Message :=
  { method := ("custom/unknown"), id := some 1 }

/-- A message whose method is absent from the scope map but names an
`Object.prototype` member. -/
def msgToString : Message :=
  { method := ("toString"), id := some 1 }

theorem storeGet_storeSet_self (store : SessionStore) (k : String) (v : SessionData) :
    storeGet (storeSet store k v) k = some v := by
  induction store with
  | nil => simp [storeSet, storeGet]
  | cons p rest ih =>
    by_cases h : p.1 = k
    · simp [storeSet, h, storeGet]
    · simp [storeSet, h, storeGet, ih]

theorem storeGet_storeSet_ne (store : SessionStore) (k : String) (v : SessionData)
    (k' : String) (h : k' ≠ k) :
    storeGet (storeSet store k v) k' = storeGet store k' := by
  induction store with
  | nil => simp [storeSet, storeGet, Ne.symm h]
  | cons p rest ih =>
    by_cases hp : p.1 = k
    · simp [storeSet, hp, storeGet, Ne.symm h]
    · by_cases hp' : p.1 = k'
      · simp [storeSet, hp, storeGet, hp', ih, h]
      · simp [storeSet, hp, storeGet, hp', ih, h]

theorem dispatchMessage_status (hasSI : Bool) (sid : String) (msg : Message) :
    (dispatchMessage hasSI sid msg).status = 200 := by
  simp only [dispatchMessage]
  split
  · rfl
  · split
    · rfl
    · rfl

/-- Counterexample to C1: the store holds a session `s1` that is valid at time
100, the request supplies that identifier through the `mcp-session-id` header
alone, yet the handler never consults the Session Store for it: it answers
401 "Session required" (the no-session path) instead of validating the
identifier and proceeding in the Active state. -/
theorem c1_header_only_counterexample :
    (validateSession demoStore 100 ("s1")).1
      = some { demoSession with lastActivity := 100 } ∧
    handleRequest demoStore 100 ("n1") true reqHeaderOnly =
      ({ status := 401, sessionHeader := none,
         body := some (Body.errorMsg ("Session required for this request")) },
       demoStore) := by
  decide

/-- C1 (amended): a session identifier is treated as supplied only when the
query parameter and the header are both present, non-empty and exactly equal;
when such a matching identifier is supplied, the handler validates it via the
Session Store: not-found/expired yields the 401 invalid/expired-session
rejection, and a valid record makes the request proceed in the Active
state. -/
theorem c1_matching_session_id_validated (store : SessionStore) (now : Nat)
    (nsid : String) (hasSI : Bool) (req : HttpRequest) (sid ah : String)
    (hpost : req.httpMethod = ("POST")) (hpath : req.path = ("/mcp/messages"))
    (hq : req.sessionIdFromQuery = some sid)
    (hh : req.sessionIdFromHeader = some sid)
    (hsid : sid ≠ (""))
    (hah : req.authHeader = some ah)
    (hbear : strStartsWith ah ("Bearer ") = true)
    (htok : validateApiKey (strDrop ah 7) = true) :
    (∀ q h s, extractSessionId q h = some s ↔
      (q = some s ∧ h = some s ∧ s ≠ (""))) ∧
    ((validateSession store now sid).1 = none →
      handleRequest store now nsid hasSI req =
        ({ status := 401, sessionHeader := none,
           body := some (Body.errorMsg ("Invalid or expired session")) },
         (validateSession store now sid).2)) ∧
    (∀ s, (validateSession store now sid).1 = some s →
      handleRequest store now nsid hasSI req =
        handleActive (validateSession store now sid).2 hasSI s sid req.message) := by
  have hchar : ∀ q h s, extractSessionId q h = some s ↔
      (q = some s ∧ h = some s ∧ s ≠ ("")) := by
    intro q h s
    cases q with
    | none => simp [extractSessionId]
    | some a =>
      cases h with
      | none => simp [extractSessionId]
      | some b =>
        by_cases hab : a = b
        · subst hab
          by_cases ha : a = ("")
          · subst ha
            simp [extractSessionId]
            intro h1
            exact h1.symm
          · simp [extractSessionId, ha]
            intro h1
            rw [← h1]
            exact ha
        · simp [extractSessionId, hab]
          rintro h1 h2
          exact absurd (h1.trans h2.symm) hab
  have hex : extractSessionId req.sessionIdFromQuery req.sessionIdFromHeader
      = some sid := by
    rw [hq, hh]
    exact (hchar _ _ _).mpr ⟨rfl, rfl, hsid⟩
  refine ⟨hchar, ?_, ?_⟩
  · intro hnone
    rcases hval : validateSession store now sid with ⟨r, st2⟩
    rw [hval] at hnone
    simp only at hnone
    subst hnone
    simp [handleRequest, hpost, hpath, hah, hbear, htok, hex, hval]
  · intro s hsome
    rcases hval : validateSession store now sid with ⟨r, st2⟩
    rw [hval] at hsome
    simp only at hsome
    subst hsome
    simp [handleRequest, hpost, hpath, hah, hbear, htok, hex, hval]

/-- Witness for the amended C1 at a concrete input: a request carrying the
matching valid identifier `s1` on both channels proceeds to Active-state
processing. -/
theorem c1_matching_session_id_validated_witness :
    handleRequest demoStore 100 ("n1") true reqBothChannels =
      handleActive (validateSession demoStore 100 ("s1")).2 true
        { demoSession with lastActivity := 100 } ("s1")
        reqBothChannels.message :=
  (c1_matching_session_id_validated demoStore 100 ("n1") true reqBothChannels
    ("s1") ("Bearer bp_sk_123") rfl rfl rfl rfl (by decide) rfl (by decide)
    (by decide)).2.2 { demoSession with lastActivity := 100 } (by decide)

/-- C2: a request supplying different session identifiers in the query
parameter and the header is handled as if no session identifier were
supplied: an `initialize` request succeeds with a fresh session, any other
method is rejected 401 session-required. -/
theorem c2_mismatched_ids_no_session (store : SessionStore) (now : Nat)
    (nsid : String) (hasSI : Bool) (req : HttpRequest) (q h ah : String)
    (hpost : req.httpMethod = ("POST")) (hpath : req.path = ("/mcp/messages"))
    (hq : req.sessionIdFromQuery = some q)
    (hh : req.sessionIdFromHeader = some h)
    (hne : q ≠ h)
    (hah : req.authHeader = some ah)
    (hbear : strStartsWith ah ("Bearer ") = true)
    (htok : validateApiKey (strDrop ah 7) = true) :
    (req.message.method = ("initialize") →
      handleRequest store now nsid hasSI req =
        ({ status := 200, sessionHeader := some nsid,
           body := some (Body.initResponse req.message.id) },
         storeSet store nsid
           (createSession nsid ("demo-user") [("read"), ("write")] now))) ∧
    (req.message.method ≠ ("initialize") →
      handleRequest store now nsid hasSI req =
        ({ status := 401, sessionHeader := none,
           body := some (Body.errorMsg ("Session required for this request")) },
         store)) := by
  have hex : extractSessionId req.sessionIdFromQuery req.sessionIdFromHeader
      = none := by
    simp [extractSessionId, hq, hh, hne]
  constructor <;> intro hm <;>
    simp [handleRequest, hpost, hpath, hah, hbear, htok, hex, hm]

/-- Witness for C2 at a concrete input: mismatched identifiers `a`/`b` on an
`initialize` request still produce the successful handshake with a fresh
session. -/
theorem c2_mismatched_ids_no_session_witness :
    handleRequest demoStore 7 ("n2") false reqMismatch =
      ({ status := 200, sessionHeader := some ("n2"),
         body := some (Body.initResponse reqMismatch.message.id) },
       storeSet demoStore ("n2")
         (createSession ("n2") ("demo-user") [("read"), ("write")] 7)) :=
  (c2_mismatched_ids_no_session demoStore 7 ("n2") false reqMismatch
    ("a") ("b") ("Bearer bp_sk_123") rfl rfl rfl rfl (by decide) rfl
    (by decide) (by decide)).1 rfl

/-- C3: every record produced by `createSession` expires exactly 30 minutes
(1800000 ms) after its creation timestamp; creation always succeeds and the
record is immediately retrievable and valid; and validation succeeds exactly
while the current time is at or before the expiry timestamp, so the record is
still valid at `createdAt + 30min` itself and becomes invalid only strictly
after that boundary. -/
theorem c3_session_lifetime_boundary (store : SessionStore) (sid uid : String)
    (scopes : List String) (now t : Nat) :
    (createSession sid uid scopes now).expiresAt
      = (createSession sid uid scopes now).createdAt + 30 * 60 * 1000 ∧
    (validateSession (storeSet store sid (createSession sid uid scopes now))
      now sid).1 = some (createSession sid uid scopes now) ∧
    ((validateSession (storeSet store sid (createSession sid uid scopes now))
        t sid).1
      = some { createSession sid uid scopes now with lastActivity := t }
      ↔ t ≤ now + 30 * 60 * 1000) ∧
    ((validateSession (storeSet store sid (createSession sid uid scopes now))
        t sid).1 = none ↔ now + 30 * 60 * 1000 < t) := by
  refine ⟨rfl, ?_, ?_, ?_⟩
  · simp [validateSession, storeGet_storeSet_self, createSession]
  · simp only [validateSession, storeGet_storeSet_self, createSession]
    constructor
    · intro h
      by_contra hl
      simp [show now + 30 * 60 * 1000 < t by omega] at h
    · intro h
      simp [show ¬ (now + 30 * 60 * 1000 < t) by omega]
  · simp only [validateSession, storeGet_storeSet_self, createSession]
    constructor
    · intro h
      by_contra hl
      simp [show ¬ (now + 30 * 60 * 1000 < t) by omega] at h
    · intro h
      simp [h]

/-- C4: `validateSession` returns not-found exactly when the identifier is
absent or the record has expired; an expired record is deleted from the store
as a side effect; an absent identifier leaves the store untouched; and a
successful validation returns the record with its last-activity timestamp
updated to now, storing that update. -/
theorem c4_validate_result_spec (store : SessionStore) (now : Nat)
    (sid : String) :
    ((validateSession store now sid).1 = none ↔
      storeGet store sid = none ∨
        ∃ s, storeGet store sid = some s ∧ s.expiresAt < now) ∧
    (storeGet store sid = none → validateSession store now sid = (none, store)) ∧
    (∀ s, storeGet store sid = some s → s.expiresAt < now →
      validateSession store now sid = (none, storeDelete store sid)) ∧
    (∀ s, storeGet store sid = some s → now ≤ s.expiresAt →
      validateSession store now sid =
        (some { s with lastActivity := now },
         storeSet store sid { s with lastActivity := now })) := by
  refine ⟨?_, ?_, ?_, ?_⟩
  · cases hget : storeGet store sid with
    | none => simp [validateSession, hget]
    | some s =>
      by_cases hexp : now > s.expiresAt
      · simp [validateSession, hget, hexp]
      · simp [validateSession, hget, hexp]
  · intro h
    simp [validateSession, h]
  · intro s hget hexp
    simp [validateSession, hget, show now > s.expiresAt from hexp]
  · intro s hget hle
    simp [validateSession, hget, show ¬ (now > s.expiresAt) from by omega]

/-- Witness for C4 at a concrete input: validating `s1` at time 2000000 (past
its expiry 1800000) deletes the record and returns not-found. -/
theorem c4_validate_result_spec_witness :
    validateSession demoStore 2000000 ("s1")
      = (none, storeDelete demoStore ("s1")) :=
  (c4_validate_result_spec demoStore 2000000 ("s1")).2.2.1 demoSession
    (by decide) (by decide)

/-- C5: for every session and method, the Active-state scope gate forwards
the request exactly when the session holds the superuser scope `admin`, or
the method requires no scope, or the session holds the required scope; and a
session holding `admin` passes `hasScope` for every scope, present in its
scope set or not. -/
theorem c5_authorization_rule (store : SessionStore) (hasSI : Bool)
    (session : SessionData) (sid : String) (msg : Message)
    (hni : msg.method ≠ ("notifications/initialized")) :
    (∀ scope, ("admin") ∈ session.scopes → hasScope session scope = true) ∧
    ((handleActive store hasSI session sid msg).1
        = dispatchMessage hasSI sid msg ↔
      ("admin") ∈ session.scopes ∨
      getRequiredScope msg.method = none ∨
      ∃ rs, getRequiredScope msg.method
          = some (ScopeRequirement.scopeName rs) ∧ rs ∈ session.scopes) := by
  constructor
  · intro scope h
    simp [hasScope]
    exact Or.inl h
  · cases hrs : getRequiredScope msg.method with
    | none => simp [handleActive, hni, hrs]
    | some sr =>
      cases sr with
      | scopeName rs =>
        by_cases hs : hasScope session rs = true
        · have hval : (handleActive store hasSI session sid msg).1
              = dispatchMessage hasSI sid msg := by
            simp [handleActive, hni, hrs, hs]
          rw [hval]
          simp only [eq_self_iff_true, true_iff]
          by_cases hadmin : ("admin") ∈ session.scopes
          · exact Or.inl hadmin
          · right
            right
            refine ⟨rs, rfl, ?_⟩
            simp [hasScope, hadmin] at hs
            exact hs
        · rw [Bool.not_eq_true] at hs
          have hval : (handleActive store hasSI session sid msg).1 =
              { status := 403, sessionHeader := none,
                body := some (Body.errorMsg
                  (("Insufficient permissions. Required scope: ") ++ rs)) } := by
            simp [handleActive, hni, hrs, hs]
          rw [hval]
          constructor
          · intro heq
            have hstat := congrArg HttpResponse.status heq
            simp [dispatchMessage_status] at hstat
          · rintro (hadmin | hnone | ⟨rs2, hrs2, hc⟩)
            · have hadm : hasScope session rs = true := by
                simp [hasScope]
                exact Or.inl hadmin
              rw [hs] at hadm
              exact Bool.noConfusion hadm
            · exact Option.noConfusion hnone
            · injection hrs2 with hrr
              injection hrr with hrr2
              subst hrr2
              have hmem : hasScope session rs = true := by
                simp [hasScope]
                exact Or.inr hc
              rw [hs] at hmem
              exact Bool.noConfusion hmem
      | inheritedValue name =>
        by_cases hadmin : ("admin") ∈ session.scopes
        · have hval : (handleActive store hasSI session sid msg).1
              = dispatchMessage hasSI sid msg := by
            simp [handleActive, hni, hrs, hasScopeInherited, hadmin]
          rw [hval]
          simp only [eq_self_iff_true, true_iff]
          exact Or.inl hadmin
        · have hval : (handleActive store hasSI session sid msg).1 =
              { status := 403, sessionHeader := none,
                body := some (Body.errorMsgInherited name) } := by
            simp [handleActive, hni, hrs, hasScopeInherited, hadmin]
          rw [hval]
          constructor
          · intro heq
            have hstat := congrArg HttpResponse.status heq
            simp [dispatchMessage_status] at hstat
          · rintro (h1 | h2 | ⟨rs2, hrs2, hc⟩)
            · exact absurd h1 hadmin
            · exact Option.noConfusion h2
            · injection hrs2 with hrr
              exact ScopeRequirement.noConfusion hrr

/-- Witness for C5 at a concrete input: a session holding only `admin` passes
`hasScope` for the `terminal` scope, which is absent from its scope set. -/
theorem c5_authorization_rule_witness :
    hasScope adminSession ("terminal") = true :=
  (c5_authorization_rule demoStore true adminSession ("s2")
    { method := ("tools/send_terminal"), id := some 1 } (by decide)).1
    ("terminal") (by decide)

/-- Counterexample to C7, on two counts. First, `notifications/initialized`
is absent from the scope requirement mapping, yet an Active-state request
with that method is not forwarded to dispatch — it is acknowledged with an
empty 200 before the scope check. Second, `toString` is also absent from the
mapping (no own entry of the map has that key), yet the lookup falls through
to the truthy `Object.prototype.toString`, so `requiredScope` is not none,
the session's scopes are consulted, and the non-admin session `demoSession`
is rejected with 403. -/
theorem c7_initialized_not_dispatched_counterexample :
    getRequiredScope ("notifications/initialized") = none ∧
    handleActive demoStore true demoSession ("s1") msgInitialized
      = ({ status := 200, sessionHeader := none, body := none }, demoStore) ∧
    ({ status := 200, sessionHeader := none, body := none } : HttpResponse)
      ≠ dispatchMessage true ("s1") msgInitialized ∧
    (∀ p ∈ scopeMap, p.1 ≠ ("toString")) ∧
    getRequiredScope ("toString")
      = some (ScopeRequirement.inheritedValue ("toString")) ∧
    (handleActive demoStore true demoSession ("s1") msgToString).1.status
      = 403 := by
  decide

/-- C7 (amended): every method name that is neither an own key of the scope
requirement mapping nor the name of an `Object.prototype` member (whose
inherited value the lookup would leak) requires no scope, and an Active-state
request with such a method — apart from the reserved
`notifications/initialized`, which is acknowledged before the scope check —
passes the scope gate for every session whatsoever (its scopes are never
consulted) and is forwarded to dispatch, never rejected with 403. -/
theorem c7_unmapped_methods_forwarded (store : SessionStore) (hasSI : Bool)
    (session : SessionData) (sid : String) (msg : Message)
    (habs : ∀ p ∈ scopeMap, p.1 ≠ msg.method)
    (hproto : msg.method ∉ objectPrototypeKeys)
    (hni : msg.method ≠ ("notifications/initialized")) :
    getRequiredScope msg.method = none ∧
    handleActive store hasSI session sid msg
      = (dispatchMessage hasSI sid msg, store) := by
  have hfind : scopeMap.find? (fun p => p.1 == msg.method) = none := by
    rw [List.find?_eq_none]
    intro p hp
    simpa using habs p hp
  have hnone : getRequiredScope msg.method = none := by
    rw [getRequiredScope, hfind]
    simp [hproto]
  exact ⟨hnone, by simp [handleActive, hni, hnone]⟩

/-- Witness for the amended C7 at a concrete input: the method
`custom/unknown`, unmapped and not an `Object.prototype` name, requires no
scope and is forwarded to dispatch. -/
theorem c7_unmapped_methods_forwarded_witness :
    getRequiredScope ("custom/unknown") = none ∧
    handleActive demoStore true demoSession ("s1") msgUnknown
      = (dispatchMessage true ("s1") msgUnknown, demoStore) :=
  c7_unmapped_methods_forwarded demoStore true demoSession ("s1") msgUnknown
    (by decide) (by decide) (by decide)

/-- C8: a request to the message endpoint whose bearer token fails the format
check is rejected 401 whatever its method and whatever session identifiers it
carries, and the session store is left untouched — no session is created,
looked up or modified. -/
theorem c8_bad_token_rejected (store : SessionStore) (now : Nat)
    (nsid : String) (hasSI : Bool) (req : HttpRequest) (ah : String)
    (hpost : req.httpMethod = ("POST")) (hpath : req.path = ("/mcp/messages"))
    (hah : req.authHeader = some ah)
    (hbear : strStartsWith ah ("Bearer ") = true)
    (htok : validateApiKey (strDrop ah 7) = false) :
    handleRequest store now nsid hasSI req =
      ({ status := 401, sessionHeader := none,
         body := some (Body.errorMsg ("Invalid API key format")) }, store) := by
  simp [handleRequest, hpost, hpath, hah, hbear, htok]

/-- Witness for C8 at a concrete input: the token `xx` (wrong prefix) is
rejected 401 even on an `initialize` request with session identifiers, and
the store is unchanged. -/
theorem c8_bad_token_rejected_witness :
    handleRequest demoStore 5 ("n1") true reqBadToken =
      ({ status := 401, sessionHeader := none,
         body := some (Body.errorMsg ("Invalid API key format")) },
       demoStore) :=
  c8_bad_token_rejected demoStore 5 ("n1") true reqBadToken ("Bearer xx")
    rfl rfl rfl (by decide) (by decide)

/-- C9: for every operation in the known set, the namespaced spelling
`tools/<op>` and the bare spelling `<op>` resolve to the identical required
scope. -/
theorem c9_namespaced_bare_scope_agree (op : String)
    (hop : op ∈ knownOperations) :
    getRequiredScope (("tools/") ++ op) = getRequiredScope op := by
  fin_cases hop <;> rfl

/-- Witness for C9 at a concrete input: `tools/list_agents` and `list_agents`
require the same scope. -/
theorem c9_namespaced_bare_scope_agree_witness :
    getRequiredScope (("tools/") ++ ("list_agents"))
      = getRequiredScope ("list_agents") :=
  c9_namespaced_bare_scope_agree ("list_agents") (by decide)

/-- C10: a successful validation of a live record changes only its
last-activity field — identifier, owner, creation timestamp, scope set and
expiry timestamp are unchanged, so activity never extends the expiry — and
every other key of the store maps to exactly what it mapped to before. -/
theorem c10_validate_frame (store : SessionStore) (now : Nat) (sid : String)
    (s : SessionData) (hget : storeGet store sid = some s)
    (hlive : now ≤ s.expiresAt) :
    (validateSession store now sid).1 = some { s with lastActivity := now } ∧
    ({ s with lastActivity := now }).id = s.id ∧
    ({ s with lastActivity := now }).userId = s.userId ∧
    ({ s with lastActivity := now }).createdAt = s.createdAt ∧
    ({ s with lastActivity := now }).scopes = s.scopes ∧
    ({ s with lastActivity := now }).expiresAt = s.expiresAt ∧
    storeGet (validateSession store now sid).2 sid
      = some { s with lastActivity := now } ∧
    (∀ k, k ≠ sid →
      storeGet (validateSession store now sid).2 k = storeGet store k) := by
  have hmain : validateSession store now sid =
      (some { s with lastActivity := now },
       storeSet store sid { s with lastActivity := now }) := by
    simp [validateSession, hget, show ¬ (now > s.expiresAt) from by omega]
  rw [hmain]
  exact ⟨rfl, rfl, rfl, rfl, rfl, rfl, storeGet_storeSet_self _ _ _,
    fun k hk => storeGet_storeSet_ne _ _ _ _ hk⟩

/-- Witness for C10 at a concrete input: validating `s1` at time 100 updates
only its last-activity field. -/
theorem c10_validate_frame_witness :
    (validateSession demoStore 100 ("s1")).1
      = some { demoSession with lastActivity := 100 } :=
  (c10_validate_frame demoStore 100 ("s1") demoSession (by decide)
    (by decide)).1

end Blueprints
